import Mathlib

/-!
Shallow embedding of the exercise-repetition and form-scoring engine of
`src/pose_detection.py` (classes `PoseAnalyzer`, `PushupCounter`,
`SquatCounter`, `JumpingJackCounter`).

Modelling conventions:
* Python floats are modelled as real numbers (`ℝ`); `np.arctan2 y x` is
  modelled as `Complex.arg (x + y*I)`, which has the same range `(-π, π]`
  and the same value `0` at `(0, 0)`.
* A MediaPipe landmark is a Python dict that may lack the keys `x`/`y`;
  it is modelled as a pair of `Option ℝ` fields.  A frame is a `List Landmark`;
  Python's `landmarks[i]` (which raises `IndexError` out of range) is
  modelled as `landmarks[i]?`.
* Each counter class becomes a structure holding its mutable attributes;
  the method `analyze` becomes a function from the current structure value
  and a frame to the returned dict together with the updated structure
  value.  A raised-and-caught exception inside `analyze` becomes the
  `Except.error` branch.  In the Python code every fallible operation
  (landmark indexing / dict key access) happens before the state mutation
  at lines 88-92 / 214-218 / 312-316, so the error branch returns the
  incoming state unchanged, exactly as the Python object keeps its
  attributes when the `except` clause runs.
* `round(x, 1)` is modelled as `(round (10*x) : ℤ) / 10` (Mathlib's `round`
  is round-half-up while Python rounds half to even; the two differ only at
  exact ties, which no claim depends on).
-/

/-- Two-argument arctangent, `np.arctan2 y x`: the angle of the point
`(x, y)`, in `(-π, π]`, with `atan2 0 0 = 0` as in numpy. -/
noncomputable def atan2 (y x : ℝ) : ℝ := Complex.arg ((x : ℂ) + (y : ℂ) * Complex.I)

/-- Python `round(x, 1)`. -/
noncomputable def round1 (x : ℝ) : ℝ := (round (10 * x) : ℤ) / 10

/-- Python `round(x, 2)`. -/
noncomputable def round2 (x : ℝ) : ℝ := (round (100 * x) : ℤ) / 100

/-- One body keypoint, a Python dict whose keys `x` and `y` may be absent
(absence models a malformed landmark whose key access raises `KeyError`). -/
structure Landmark where
  x? : Option ℝ
  y? : Option ℝ

/-- `PushupCounter.__init__`: mutable attributes `state`, `rep_count`,
`last_angle`. -/
structure PushupCounter where
  state : String
  rep_count : ℕ
  last_angle : ℝ

def PushupCounter.init : PushupCounter :=
  { state := "up", rep_count := 0, last_angle := 180 }

/-- `PushupCounter._calculate_angle` (src/pose_detection.py lines 113-125). -/
noncomputable def PushupCounter.calculate_angle (a b c : ℝ × ℝ) : ℝ :=
  let radians := atan2 (c.2 - b.2) (c.1 - b.1) - atan2 (a.2 - b.2) (a.1 - b.1)
  let angle := |radians * 180.0 / Real.pi|
  if angle > 180.0 then 360 - angle else angle

/-- The rep-counting phase transition of `PushupCounter.analyze`
(src/pose_detection.py lines 88-92), as a function of the current counter
state and the frame's computed `avg_arm_angle`. -/
noncomputable def PushupCounter.step (c : PushupCounter) (avg_arm_angle : ℝ) :
    PushupCounter :=
  if c.state = "up" ∧ avg_arm_angle < 90 then
    { c with state := "down" }
  else if c.state = "down" ∧ avg_arm_angle > 160 then
    { c with state := "up", rep_count := c.rep_count + 1 }
  else
    c

/-- Feeding a sequence of frames to the push-up counter, identified by the
`avg_arm_angle` value each frame produces (the only frame datum the
transition at lines 88-92 reads). -/
noncomputable def PushupCounter.run (c : PushupCounter) (angles : List ℝ) :
    PushupCounter :=
  angles.foldl PushupCounter.step c

theorem up_ne_down : ("up" : String) ≠ "down" := by decide

theorem down_ne_up : ("down" : String) ≠ "up" := by decide

theorem pushup_run_append (c : PushupCounter) (l₁ l₂ : List ℝ) :
    c.run (l₁ ++ l₂) = (c.run l₁).run l₂ :=
  List.foldl_append _ _ _ _

theorem pushup_step_down_of_le (c : PushupCounter) (a : ℝ)
    (hs : c.state = "down") (ha : a ≤ 160) : c.step a = c := by
  unfold PushupCounter.step
  rw [if_neg, if_neg]
  · rintro ⟨-, h⟩
    exact absurd ha (not_le.mpr h)
  · rintro ⟨h, -⟩
    rw [hs] at h
    exact absurd h (by decide)

theorem pushup_run_down_of_le (c : PushupCounter) (l : List ℝ)
    (hs : c.state = "down") (hl : ∀ a ∈ l, a ≤ 160) : c.run l = c := by
  induction l with
  | nil => rfl
  | cons a l ih =>
      have h1 : c.step a = c :=
        pushup_step_down_of_le c a hs (hl a (List.mem_cons_self a l))
      show (c.step a).run l = c
      rw [h1]
      exact ih fun b hb => hl b (List.mem_cons_of_mem a hb)

theorem pushup_run_180_80 :
    PushupCounter.init.run [180, 80] =
      { state := "down", rep_count := 0, last_angle := 180 } := by
  show (PushupCounter.init.step 180).step 80 = _
  norm_num [PushupCounter.init, PushupCounter.step, up_ne_down, down_ne_up]

/-- C1: starting from the initial (phase `up`) push-up counter, the
avg-arm-angle sequence `180, 80, 180` yields exactly one rep, and the
increment happens only on the final frame (after `180` and after `180, 80`
the count is still `0`); a run `180, 80` followed by any frames whose angle
never exceeds `160` leaves `rep_count` at `0`. -/
theorem pushup_cycle_counts_one_rep :
    (PushupCounter.init.run [180]).rep_count = 0 ∧
    (PushupCounter.init.run [180, 80]).rep_count = 0 ∧
    (PushupCounter.init.run [180, 80, 180]).rep_count = 1 ∧
    ∀ l : List ℝ, (∀ a ∈ l, a ≤ 160) →
      (PushupCounter.init.run ([180, 80] ++ l)).rep_count = 0 := by
  refine ⟨?_, ?_, ?_, ?_⟩
  · show (PushupCounter.init.step 180).rep_count = 0
    norm_num [PushupCounter.init, PushupCounter.step, up_ne_down, down_ne_up]
  · rw [pushup_run_180_80]
  · show (((PushupCounter.init.step 180).step 80).step 180).rep_count = 1
    norm_num [PushupCounter.init, PushupCounter.step, up_ne_down, down_ne_up]
  · intro l hl
    rw [pushup_run_append, pushup_run_180_80,
      pushup_run_down_of_le _ l rfl hl]

/-- Witness for `pushup_cycle_counts_one_rep`: the all-at-most-160 tail
hypothesis holds for the concrete tail `[150, 100]`, and the count stays 0. -/
theorem pushup_cycle_counts_one_rep_witness :
    (PushupCounter.init.run ([180, 80] ++ [150, 100])).rep_count = 0 :=
  pushup_cycle_counts_one_rep.2.2.2 [150, 100] (by norm_num)

/-- `SquatCounter.__init__`: mutable attributes `state`, `rep_count`. -/
structure SquatCounter where
  state : String
  rep_count : ℕ

def SquatCounter.init : SquatCounter := { state := "up", rep_count := 0 }

/-- `SquatCounter._calculate_angle` (src/pose_detection.py lines 238-250),
a verbatim duplicate of the push-up version, embedded separately so the
duplication can be checked. -/
noncomputable def SquatCounter.calculate_angle (a b c : ℝ × ℝ) : ℝ :=
  let radians := atan2 (c.2 - b.2) (c.1 - b.1) - atan2 (a.2 - b.2) (a.1 - b.1)
  let angle := |radians * 180.0 / Real.pi|
  if angle > 180.0 then 360 - angle else angle

/-- The rep-counting phase transition of `SquatCounter.analyze`
(src/pose_detection.py lines 214-218), as a function of the current counter
state and the frame's computed `avg_knee_angle`. -/
noncomputable def SquatCounter.step (c : SquatCounter) (avg_knee_angle : ℝ) :
    SquatCounter :=
  if c.state = "up" ∧ avg_knee_angle < 120 then
    { c with state := "down" }
  else if c.state = "down" ∧ avg_knee_angle > 160 then
    { c with state := "up", rep_count := c.rep_count + 1 }
  else
    c

/-- `JumpingJackCounter.__init__`: mutable attributes `state`, `rep_count`. -/
structure JumpingJackCounter where
  state : String
  rep_count : ℕ

def JumpingJackCounter.init : JumpingJackCounter :=
  { state := "closed", rep_count := 0 }

/-- The position classification and rep-counting phase transition of
`JumpingJackCounter.analyze` (src/pose_detection.py lines 309-316), as a
function of the current counter state and the frame's computed
`arm_ratio` and `leg_ratio`. -/
noncomputable def JumpingJackCounter.step (c : JumpingJackCounter)
    (arm_ratio leg_ratio : ℝ) : JumpingJackCounter :=
  let is_open := arm_ratio > 0.3 ∧ leg_ratio > 0.2
  if c.state = "closed" ∧ is_open then
    { c with state := "open" }
  else if c.state = "open" ∧ ¬is_open then
    { c with state := "closed", rep_count := c.rep_count + 1 }
  else
    c

/-- Feeding a sequence of frames to the jumping-jack counter, identified by
the `(arm_ratio, leg_ratio)` pair each frame produces (the only frame data
the transition at lines 309-316 reads). -/
noncomputable def JumpingJackCounter.run (c : JumpingJackCounter)
    (ratios : List (ℝ × ℝ)) : JumpingJackCounter :=
  ratios.foldl (fun c p => c.step p.1 p.2) c

theorem closed_ne_open : ("closed" : String) ≠ "open" := by decide

theorem open_ne_closed : ("open" : String) ≠ "closed" := by decide

theorem jj_step_closed_keeps_rep (c : JumpingJackCounter) (ar lr : ℝ)
    (hs : c.state = "closed") : (c.step ar lr).rep_count = c.rep_count := by
  unfold JumpingJackCounter.step
  dsimp only
  split_ifs with h1 h2
  · rfl
  · rw [hs] at h2
    exact absurd h2.1 (by decide)
  · rfl

/-- C4: starting from the initial (phase `closed`) jumping-jack counter, the
`(arm_ratio, leg_ratio)` sequence `(0,0), (0.4,0.3), (0,0)` yields exactly
one rep, counted on the open-to-closed transition of the third frame: after
the opening frame `(0.4,0.3)` the phase is `open` but the count is still
`0`, and after the closing frame the phase is `closed` and the count is `1`;
moreover a step taken in phase `closed` (in particular any closed-to-open
transition) never changes `rep_count`. -/
theorem jumping_jack_cycle_counts_one_rep :
    (JumpingJackCounter.init.run [(0, 0)]).rep_count = 0 ∧
    (JumpingJackCounter.init.run [(0, 0)]).state = "closed" ∧
    (JumpingJackCounter.init.run [(0, 0), (0.4, 0.3)]).rep_count = 0 ∧
    (JumpingJackCounter.init.run [(0, 0), (0.4, 0.3)]).state = "open" ∧
    (JumpingJackCounter.init.run [(0, 0), (0.4, 0.3), (0, 0)]).rep_count = 1 ∧
    (JumpingJackCounter.init.run [(0, 0), (0.4, 0.3), (0, 0)]).state = "closed" ∧
    ∀ (c : JumpingJackCounter) (ar lr : ℝ), c.state = "closed" →
      (c.step ar lr).rep_count = c.rep_count := by
  have h1 : JumpingJackCounter.step { state := "closed", rep_count := 0 } 0 0 =
      { state := "closed", rep_count := 0 } := by
    norm_num [JumpingJackCounter.step, closed_ne_open]
  have h2 : JumpingJackCounter.step { state := "closed", rep_count := 0 } 0.4 0.3 =
      { state := "open", rep_count := 0 } := by
    norm_num [JumpingJackCounter.step]
  have h3 : JumpingJackCounter.step { state := "open", rep_count := 0 } 0 0 =
      { state := "closed", rep_count := 1 } := by
    norm_num [JumpingJackCounter.step, open_ne_closed]
  refine ⟨?_, ?_, ?_, ?_, ?_, ?_, fun c ar lr hs => jj_step_closed_keeps_rep c ar lr hs⟩ <;>
    simp only [JumpingJackCounter.run, List.foldl, h1, h2, h3,
      JumpingJackCounter.init]

/-- Witness for `jumping_jack_cycle_counts_one_rep`: the phase-closed
hypothesis of the final conjunct holds for the initial counter, whose
`rep_count` a `(5, 5)` step leaves at `0`. -/
theorem jumping_jack_cycle_counts_one_rep_witness :
    (JumpingJackCounter.init.step 5 5).rep_count = JumpingJackCounter.init.rep_count :=
  jumping_jack_cycle_counts_one_rep.2.2.2.2.2.2 JumpingJackCounter.init 5 5 rfl

/-- `PushupCounter._calculate_body_alignment` (src/pose_detection.py lines
127-141): deviation between shoulder-centre height and hip-centre height,
converted to a score clamped to `[0, 100]`. -/
noncomputable def PushupCounter.calculate_body_alignment
    (left_shoulder right_shoulder left_hip right_hip : ℝ × ℝ) : ℝ :=
  let shoulder_center : ℝ × ℝ :=
    ((left_shoulder.1 + right_shoulder.1) / 2, (left_shoulder.2 + right_shoulder.2) / 2)
  let hip_center : ℝ × ℝ :=
    ((left_hip.1 + right_hip.1) / 2, (left_hip.2 + right_hip.2) / 2)
  let vertical_deviation := |shoulder_center.2 - hip_center.2|
  let alignment_score := max 0 (100 - vertical_deviation * 1000)
  min 100 alignment_score

/-- The fallible prefix of `PushupCounter.analyze` (src/pose_detection.py
lines 58-85): landmark indexing, coordinate key access, the two arm-angle
computations and the body-alignment score.  Returns
`(avg_arm_angle, body_alignment_score)`; `none` models the Python
`IndexError`/`KeyError` that jumps to the `except` clause.  Every fallible
access of the method happens here, before the state mutation. -/
noncomputable def PushupCounter.measurements (landmarks : List Landmark) :
    Option (ℝ × ℝ) := do
  let left_shoulder ← landmarks[11]?
  let right_shoulder ← landmarks[12]?
  let left_elbow ← landmarks[13]?
  let right_elbow ← landmarks[14]?
  let left_wrist ← landmarks[15]?
  let right_wrist ← landmarks[16]?
  let left_hip ← landmarks[23]?
  let right_hip ← landmarks[24]?
  let lsx ← left_shoulder.x?
  let lsy ← left_shoulder.y?
  let rsx ← right_shoulder.x?
  let rsy ← right_shoulder.y?
  let lex ← left_elbow.x?
  let ley ← left_elbow.y?
  let rex ← right_elbow.x?
  let rey ← right_elbow.y?
  let lwx ← left_wrist.x?
  let lwy ← left_wrist.y?
  let rwx ← right_wrist.x?
  let rwy ← right_wrist.y?
  let lhx ← left_hip.x?
  let lhy ← left_hip.y?
  let rhx ← right_hip.x?
  let rhy ← right_hip.y?
  let left_arm_angle := PushupCounter.calculate_angle (lsx, lsy) (lex, ley) (lwx, lwy)
  let right_arm_angle := PushupCounter.calculate_angle (rsx, rsy) (rex, rey) (rwx, rwy)
  let avg_arm_angle := (left_arm_angle + right_arm_angle) / 2
  let body_alignment_score :=
    PushupCounter.calculate_body_alignment (lsx, lsy) (rsx, rsy) (lhx, lhy) (rhx, rhy)
  return (avg_arm_angle, body_alignment_score)

/-- `PushupCounter._calculate_pushup_form_score` (src/pose_detection.py
lines 143-156). -/
noncomputable def PushupCounter.calculate_pushup_form_score
    (arm_angle body_alignment : ℝ) : ℝ :=
  let angle_score : ℝ :=
    if 60 ≤ arm_angle ∧ arm_angle ≤ 90 ∨ 160 ≤ arm_angle ∧ arm_angle ≤ 180 then 100
    else if 90 < arm_angle ∧ arm_angle < 160 then 70
    else max 0 (100 - |arm_angle - 90| * 2)
  let form_score := angle_score * 0.7 + body_alignment * 0.3
  min 100 (max 0 form_score)

/-- `PushupCounter._generate_pushup_feedback` (src/pose_detection.py lines
158-177); it reads `self.state` after the phase transition has run. -/
noncomputable def PushupCounter.generate_pushup_feedback (c : PushupCounter)
    (arm_angle body_alignment : ℝ) : List String :=
  let feedback : List String :=
    if arm_angle < 60 then ["Don\x27t go too low - protect your shoulders"]
    else if arm_angle < 90 ∧ c.state = "down" then ["Good depth! Now push up"]
    else if 120 < arm_angle ∧ arm_angle < 160 then ["Push all the way up"]
    else if 160 ≤ arm_angle then ["Great form!"]
    else []
  let feedback :=
    if body_alignment < 70 then feedback ++ ["Keep your body straight - avoid sagging"]
    else feedback
  if feedback = [] then ["Excellent form!"] else feedback

/-- The per-frame dict returned by `PushupCounter.analyze` on success
(src/pose_detection.py lines 100-107). -/
structure PushupResult where
  reps : ℕ
  form_score : ℝ
  feedback : List String
  arm_angle : ℝ
  body_alignment : ℝ
  state : String

/-- `PushupCounter.analyze` (src/pose_detection.py lines 54-111): the
fallible measurement prefix, then the phase transition (the only mutation
of the counter), then score/feedback generation.  The pair holds the
returned dict (or the error dict of the `except` clause) and the counter
as left after the call. -/
noncomputable def PushupCounter.analyze (c : PushupCounter)
    (landmarks : List Landmark) : Except String PushupResult × PushupCounter :=
  match PushupCounter.measurements landmarks with
  | none => (Except.error "Pushup analysis failed", c)
  | some (avg_arm_angle, body_alignment_score) =>
      let c' := c.step avg_arm_angle
      (Except.ok
        { reps := c'.rep_count
          form_score :=
            round1 (PushupCounter.calculate_pushup_form_score avg_arm_angle body_alignment_score)
          feedback := c'.generate_pushup_feedback avg_arm_angle body_alignment_score
          arm_angle := round1 avg_arm_angle
          body_alignment := round1 body_alignment_score
          state := c'.state }, c')

/-- The fallible prefix of `SquatCounter.analyze` (src/pose_detection.py
lines 190-211): landmark indexing, coordinate key access and the two
knee-angle computations.  Returns `avg_knee_angle`. -/
noncomputable def SquatCounter.measurements (landmarks : List Landmark) :
    Option ℝ := do
  let left_hip ← landmarks[23]?
  let right_hip ← landmarks[24]?
  let left_knee ← landmarks[25]?
  let right_knee ← landmarks[26]?
  let left_ankle ← landmarks[27]?
  let right_ankle ← landmarks[28]?
  let lhx ← left_hip.x?
  let lhy ← left_hip.y?
  let rhx ← right_hip.x?
  let rhy ← right_hip.y?
  let lkx ← left_knee.x?
  let lky ← left_knee.y?
  let rkx ← right_knee.x?
  let rky ← right_knee.y?
  let lax ← left_ankle.x?
  let lay ← left_ankle.y?
  let rax ← right_ankle.x?
  let ray ← right_ankle.y?
  let left_knee_angle := SquatCounter.calculate_angle (lhx, lhy) (lkx, lky) (lax, lay)
  let right_knee_angle := SquatCounter.calculate_angle (rhx, rhy) (rkx, rky) (rax, ray)
  return (left_knee_angle + right_knee_angle) / 2

/-- `SquatCounter._calculate_squat_form_score` (src/pose_detection.py lines
252-261). -/
noncomputable def SquatCounter.calculate_squat_form_score (knee_angle : ℝ) : ℝ :=
  if 80 ≤ knee_angle ∧ knee_angle ≤ 120 ∨ 160 ≤ knee_angle ∧ knee_angle ≤ 180 then 100
  else if 120 < knee_angle ∧ knee_angle < 160 then 70
  else max 0 (100 - |knee_angle - 100| * 1.5)

/-- `SquatCounter._generate_squat_feedback` (src/pose_detection.py lines
263-279); it reads `self.state` after the phase transition has run. -/
noncomputable def SquatCounter.generate_squat_feedback (c : SquatCounter)
    (knee_angle : ℝ) : List String :=
  let feedback : List String :=
    if knee_angle < 80 then ["Don\x27t squat too deep"]
    else if knee_angle ≤ 120 ∧ c.state = "down" then ["Perfect depth! Now stand up"]
    else if 130 < knee_angle ∧ knee_angle < 160 then ["Stand up completely"]
    else if 160 ≤ knee_angle then ["Great squat!"]
    else []
  if feedback = [] then ["Excellent form!"] else feedback

/-- The per-frame dict returned by `SquatCounter.analyze` on success
(src/pose_detection.py lines 226-232). -/
structure SquatResult where
  reps : ℕ
  form_score : ℝ
  feedback : List String
  knee_angle : ℝ
  state : String

/-- `SquatCounter.analyze` (src/pose_detection.py lines 187-236). -/
noncomputable def SquatCounter.analyze (c : SquatCounter)
    (landmarks : List Landmark) : Except String SquatResult × SquatCounter :=
  match SquatCounter.measurements landmarks with
  | none => (Except.error "Squat analysis failed", c)
  | some avg_knee_angle =>
      let c' := c.step avg_knee_angle
      (Except.ok
        { reps := c'.rep_count
          form_score := round1 (SquatCounter.calculate_squat_form_score avg_knee_angle)
          feedback := c'.generate_squat_feedback avg_knee_angle
          knee_angle := round1 avg_knee_angle
          state := c'.state }, c')

/-- The fallible prefix of `JumpingJackCounter.analyze`
(src/pose_detection.py lines 292-306): landmark indexing, coordinate key
access (exactly the keys the Python code touches), spreads, body height and
the two normalized ratios, with the zero-body-height fallback to `0`.
Returns `(arm_ratio, leg_ratio)`. -/
noncomputable def JumpingJackCounter.measurements (landmarks : List Landmark) :
    Option (ℝ × ℝ) := do
  let left_wrist ← landmarks[15]?
  let right_wrist ← landmarks[16]?
  let left_ankle ← landmarks[27]?
  let right_ankle ← landmarks[28]?
  let nose ← landmarks[0]?
  let rwx ← right_wrist.x?
  let lwx ← left_wrist.x?
  let rax ← right_ankle.x?
  let lax ← left_ankle.x?
  let ny ← nose.y?
  let lay ← left_ankle.y?
  let ray ← right_ankle.y?
  let arm_spread := |rwx - lwx|
  let leg_spread := |rax - lax|
  let body_height := |ny - min lay ray|
  let arm_ratio := if body_height > 0 then arm_spread / body_height else 0
  let leg_ratio := if body_height > 0 then leg_spread / body_height else 0
  return (arm_ratio, leg_ratio)

/-- `JumpingJackCounter._calculate_jumping_jack_form_score`
(src/pose_detection.py lines 337-346): a coordination sub-score and a
range sub-score, combined 60/40 with no final clamp. -/
noncomputable def JumpingJackCounter.calculate_jumping_jack_form_score
    (arm_ratio leg_ratio : ℝ) : ℝ :=
  let coordination_diff := |arm_ratio - leg_ratio|
  let coordination_score := max 0 (100 - coordination_diff * 200)
  let range_score := min 100 ((arm_ratio + leg_ratio) * 100)
  coordination_score * 0.6 + range_score * 0.4

/-- `JumpingJackCounter._generate_jumping_jack_feedback`
(src/pose_detection.py lines 348-364): independent, non-exclusive checks. -/
noncomputable def JumpingJackCounter.generate_jumping_jack_feedback
    (arm_ratio leg_ratio : ℝ) : List String :=
  let feedback : List String :=
    if arm_ratio < 0.2 then ["Raise your arms higher"] else []
  let feedback :=
    if leg_ratio < 0.15 then feedback ++ ["Jump with wider legs"] else feedback
  let coordination_diff := |arm_ratio - leg_ratio|
  let feedback :=
    if coordination_diff > 0.1 then feedback ++ ["Coordinate arms and legs together"]
    else feedback
  if feedback = [] then ["Perfect jumping jacks!"] else feedback

/-- The per-frame dict returned by `JumpingJackCounter.analyze` on success
(src/pose_detection.py lines 324-331). -/
structure JumpingJackResult where
  reps : ℕ
  form_score : ℝ
  feedback : List String
  state : String
  arm_ratio : ℝ
  leg_ratio : ℝ

/-- `JumpingJackCounter.analyze` (src/pose_detection.py lines 289-335). -/
noncomputable def JumpingJackCounter.analyze (c : JumpingJackCounter)
    (landmarks : List Landmark) : Except String JumpingJackResult × JumpingJackCounter :=
  match JumpingJackCounter.measurements landmarks with
  | none => (Except.error "Jumping jack analysis failed", c)
  | some (arm_ratio, leg_ratio) =>
      let c' := c.step arm_ratio leg_ratio
      (Except.ok
        { reps := c'.rep_count
          form_score :=
            round1 (JumpingJackCounter.calculate_jumping_jack_form_score arm_ratio leg_ratio)
          feedback := JumpingJackCounter.generate_jumping_jack_feedback arm_ratio leg_ratio
          state := c'.state
          arm_ratio := round2 arm_ratio
          leg_ratio := round2 leg_ratio }, c')

/-- `PoseAnalyzer.__init__` (src/pose_detection.py lines 9-14): one
long-lived counter per exercise kind. -/
structure PoseAnalyzer where
  pushup : PushupCounter
  squat : SquatCounter
  jumping_jack : JumpingJackCounter

def PoseAnalyzer.init : PoseAnalyzer :=
  { pushup := PushupCounter.init
    squat := SquatCounter.init
    jumping_jack := JumpingJackCounter.init }

/-- The dict returned by `PoseAnalyzer.analyze_pose`, whose key set differs
between the return sites (lines 20, 23, 29-34 and 38-44): a field is `none`
when the corresponding key is absent from the returned Python dict. -/
structure AnalyzeResponse where
  error : Option String := none
  reps : Option ℕ := none
  form_score : Option ℝ := none
  feedback : Option (List String) := none
  success : Option Bool := none

/-- `PoseAnalyzer.analyze_pose` (src/pose_detection.py lines 16-44):
selector validation, landmark-count validation (`not landmarks` is subsumed
by `len(landmarks) < 33`), dispatch to the matching counter, and the
`result.get(...)`-based normalization of lines 29-34.  With list-typed
landmarks every counter exception is caught inside the counter itself, so
the analyzer-level `except` clause of lines 36-44 cannot run: a counter
error dict flows through `result.get` and yields the default values with
`success = true`. -/
noncomputable def PoseAnalyzer.analyze_pose (st : PoseAnalyzer)
    (landmarks : List Landmark) (exercise_type : String) :
    AnalyzeResponse × PoseAnalyzer :=
  if exercise_type ∉ ["pushup", "squat", "jumping_jack"] then
    ({ error := some "Unsupported exercise type" }, st)
  else if landmarks.length < 33 then
    ({ error := some "Insufficient landmarks detected" }, st)
  else if exercise_type = "pushup" then
    match PushupCounter.analyze st.pushup landmarks with
    | (Except.ok r, c') =>
        ({ reps := some r.reps, form_score := some r.form_score,
           feedback := some r.feedback, success := some true },
         { st with pushup := c' })
    | (Except.error _, c') =>
        ({ reps := some 0, form_score := some 0,
           feedback := some ["No feedback available"], success := some true },
         { st with pushup := c' })
  else if exercise_type = "squat" then
    match SquatCounter.analyze st.squat landmarks with
    | (Except.ok r, c') =>
        ({ reps := some r.reps, form_score := some r.form_score,
           feedback := some r.feedback, success := some true },
         { st with squat := c' })
    | (Except.error _, c') =>
        ({ reps := some 0, form_score := some 0,
           feedback := some ["No feedback available"], success := some true },
         { st with squat := c' })
  else
    match JumpingJackCounter.analyze st.jumping_jack landmarks with
    | (Except.ok r, c') =>
        ({ reps := some r.reps, form_score := some r.form_score,
           feedback := some r.feedback, success := some true },
         { st with jumping_jack := c' })
    | (Except.error _, c') =>
        ({ reps := some 0, form_score := some 0,
           feedback := some ["No feedback available"], success := some true },
         { st with jumping_jack := c' })

/-- C2 counterexample: for the unsupported selector `"pogo-stick"` the
returned dict carries the unsupported-exercise-type error but NO `success`
key at all (line 20 returns only `{"error": ...}`), so it does not carry
`success = false` as claimed. -/
theorem unsupported_type_lacks_success_flag :
    (PoseAnalyzer.init.analyze_pose [] "pogo-stick").1.error =
      some "Unsupported exercise type" ∧
    (PoseAnalyzer.init.analyze_pose [] "pogo-stick").1.success = none :=
  ⟨rfl, rfl⟩

/-- C2 (amended): for every analyzer state, landmark list and selector
outside the closed set, `analyze_pose` returns exactly the one-key dict
`{"error": "Unsupported exercise type"}` — no `success`, `reps`,
`form_score` or `feedback` key — and leaves all counters untouched. -/
theorem unsupported_type_returns_bare_error (st : PoseAnalyzer)
    (landmarks : List Landmark) (exercise_type : String)
    (h : exercise_type ∉ ["pushup", "squat", "jumping_jack"]) :
    st.analyze_pose landmarks exercise_type =
      ({ error := some "Unsupported exercise type", reps := none,
         form_score := none, feedback := none, success := none }, st) := by
  unfold PoseAnalyzer.analyze_pose
  rw [if_pos h]

/-- Witness for `unsupported_type_returns_bare_error` at the concrete
selector `"pogo-stick"` and an empty landmark list. -/
theorem unsupported_type_returns_bare_error_witness :
    PoseAnalyzer.init.analyze_pose [] "pogo-stick" =
      ({ error := some "Unsupported exercise type", reps := none,
         form_score := none, feedback := none, success := none },
       PoseAnalyzer.init) :=
  unsupported_type_returns_bare_error PoseAnalyzer.init [] "pogo-stick" (by decide)

/-- A frame with the right length (33 entries) whose landmarks all lack
their coordinate keys: inside any counter the first coordinate access
raises, exercising the counter's `except` path. -/
def badFrame : List Landmark := List.replicate 33 { x? := none, y? := none }

/-- C3 counterexample: on a 33-entry frame whose landmark 11 is malformed,
the push-up counter fails internally (its `analyze` returns the error dict),
yet `analyze_pose` reports `success = true` with the default feedback
`["No feedback available"]` and no error key — not the claimed uniform
failure envelope `{error, reps = 0, form_score = 0,
feedback = ["Analysis error occurred"], success = false}`.  The counter
error dict has no `reps`/`form_score`/`feedback` keys, so the
`result.get(...)` normalization of lines 29-34 silently converts the
failure into a success response. -/
theorem counter_failure_reported_as_success :
    (PushupCounter.analyze PoseAnalyzer.init.pushup badFrame).1 =
      Except.error "Pushup analysis failed" ∧
    (PoseAnalyzer.init.analyze_pose badFrame "pushup").1.success = some true ∧
    (PoseAnalyzer.init.analyze_pose badFrame "pushup").1.feedback =
      some ["No feedback available"] ∧
    (PoseAnalyzer.init.analyze_pose badFrame "pushup").1.error = none :=
  ⟨rfl, rfl, rfl, rfl⟩

/-- C3 (amended): whenever a counter's per-frame analysis fails internally
on a full-length frame, `analyze_pose` returns NOT the uniform failure
envelope but the success-shaped dict `{reps = 0, form_score = 0,
feedback = ["No feedback available"], success = true}` with no error key;
the failure envelope of lines 38-44 is reserved for exceptions raised in
the analyzer body itself. -/
theorem counter_failure_swallowed_into_success :
    (∀ (st : PoseAnalyzer) (landmarks : List Landmark) (e : String),
      33 ≤ landmarks.length →
      (PushupCounter.analyze st.pushup landmarks).1 = Except.error e →
      (st.analyze_pose landmarks "pushup").1 =
        { error := none, reps := some 0, form_score := some 0,
          feedback := some ["No feedback available"], success := some true }) ∧
    (∀ (st : PoseAnalyzer) (landmarks : List Landmark) (e : String),
      33 ≤ landmarks.length →
      (SquatCounter.analyze st.squat landmarks).1 = Except.error e →
      (st.analyze_pose landmarks "squat").1 =
        { error := none, reps := some 0, form_score := some 0,
          feedback := some ["No feedback available"], success := some true }) ∧
    (∀ (st : PoseAnalyzer) (landmarks : List Landmark) (e : String),
      33 ≤ landmarks.length →
      (JumpingJackCounter.analyze st.jumping_jack landmarks).1 = Except.error e →
      (st.analyze_pose landmarks "jumping_jack").1 =
        { error := none, reps := some 0, form_score := some 0,
          feedback := some ["No feedback available"], success := some true }) := by
  refine ⟨?_, ?_, ?_⟩ <;> intro st landmarks e hlen herr <;>
    unfold PoseAnalyzer.analyze_pose <;>
    rw [if_neg (by decide), if_neg (by omega)]
  · rw [if_pos rfl]
    rcases ha : PushupCounter.analyze st.pushup landmarks with ⟨r, c'⟩
    rw [ha] at herr
    simp only at herr
    rw [herr]
  · rw [if_neg (by decide), if_pos rfl]
    rcases ha : SquatCounter.analyze st.squat landmarks with ⟨r, c'⟩
    rw [ha] at herr
    simp only at herr
    rw [herr]
  · rw [if_neg (by decide), if_neg (by decide)]
    rcases ha : JumpingJackCounter.analyze st.jumping_jack landmarks with ⟨r, c'⟩
    rw [ha] at herr
    simp only at herr
    rw [herr]

/-- Witness for `counter_failure_swallowed_into_success`: the concrete
33-entry malformed frame `badFrame` makes the push-up counter fail, and the
analyzer reports success with default feedback. -/
theorem counter_failure_swallowed_into_success_witness :
    (PoseAnalyzer.init.analyze_pose badFrame "pushup").1 =
      { error := none, reps := some 0, form_score := some 0,
        feedback := some ["No feedback available"], success := some true } :=
  counter_failure_swallowed_into_success.1 PoseAnalyzer.init badFrame
    "Pushup analysis failed" (by decide) rfl

theorem pushup_step_rep_le (c : PushupCounter) (a : ℝ) :
    c.rep_count ≤ (c.step a).rep_count := by
  unfold PushupCounter.step
  split_ifs <;> simp

theorem squat_step_rep_le (c : SquatCounter) (a : ℝ) :
    c.rep_count ≤ (c.step a).rep_count := by
  unfold SquatCounter.step
  split_ifs <;> simp

theorem jj_step_rep_le (c : JumpingJackCounter) (ar lr : ℝ) :
    c.rep_count ≤ (c.step ar lr).rep_count := by
  unfold JumpingJackCounter.step
  dsimp only
  split_ifs <;> simp

/-- C5: each counter starts with `rep_count = 0`, and a single `analyze`
call never decreases `rep_count` — on the error path the counter is
returned unchanged, and on the success path the phase transition at most
adds one. -/
theorem rep_count_starts_at_zero_and_never_decreases :
    PushupCounter.init.rep_count = 0 ∧
    SquatCounter.init.rep_count = 0 ∧
    JumpingJackCounter.init.rep_count = 0 ∧
    (∀ (c : PushupCounter) (landmarks : List Landmark),
      c.rep_count ≤ (c.analyze landmarks).2.rep_count) ∧
    (∀ (c : SquatCounter) (landmarks : List Landmark),
      c.rep_count ≤ (c.analyze landmarks).2.rep_count) ∧
    (∀ (c : JumpingJackCounter) (landmarks : List Landmark),
      c.rep_count ≤ (c.analyze landmarks).2.rep_count) := by
  refine ⟨rfl, rfl, rfl, ?_, ?_, ?_⟩
  · intro c landmarks
    unfold PushupCounter.analyze
    rcases PushupCounter.measurements landmarks with - | ⟨avg, align⟩
    · exact le_refl _
    · exact pushup_step_rep_le c avg
  · intro c landmarks
    unfold SquatCounter.analyze
    rcases SquatCounter.measurements landmarks with - | avg
    · exact le_refl _
    · exact squat_step_rep_le c avg
  · intro c landmarks
    unfold JumpingJackCounter.analyze
    rcases JumpingJackCounter.measurements landmarks with - | ⟨ar, lr⟩
    · exact le_refl _
    · exact jj_step_rep_le c ar lr

/-- C7: when a counter's `analyze` call takes the error path, the counter
value it hands back is exactly the incoming one: in the source every
fallible operation (landmark indexing, coordinate key access) precedes the
single state mutation, so the `except` clause observes — and keeps — the
pre-call `state`/`rep_count`. -/
theorem failed_frame_leaves_counter_unchanged :
    (∀ (c : PushupCounter) (landmarks : List Landmark) (e : String),
      (c.analyze landmarks).1 = Except.error e → (c.analyze landmarks).2 = c) ∧
    (∀ (c : SquatCounter) (landmarks : List Landmark) (e : String),
      (c.analyze landmarks).1 = Except.error e → (c.analyze landmarks).2 = c) ∧
    (∀ (c : JumpingJackCounter) (landmarks : List Landmark) (e : String),
      (c.analyze landmarks).1 = Except.error e → (c.analyze landmarks).2 = c) := by
  refine ⟨?_, ?_, ?_⟩ <;> intro c landmarks e h
  · unfold PushupCounter.analyze at h ⊢
    revert h
    rcases PushupCounter.measurements landmarks with - | ⟨avg, align⟩
    · intro h
      rfl
    · intro h
      exact absurd h (by simp)
  · unfold SquatCounter.analyze at h ⊢
    revert h
    rcases SquatCounter.measurements landmarks with - | avg
    · intro h
      rfl
    · intro h
      exact absurd h (by simp)
  · unfold JumpingJackCounter.analyze at h ⊢
    revert h
    rcases JumpingJackCounter.measurements landmarks with - | ⟨ar, lr⟩
    · intro h
      rfl
    · intro h
      exact absurd h (by simp)

/-- Witness for `failed_frame_leaves_counter_unchanged`: the empty landmark
list makes the push-up counter fail (its first landmark access raises), and
the counter value is unchanged. -/
theorem failed_frame_leaves_counter_unchanged_witness :
    (PushupCounter.analyze PushupCounter.init []).2 = PushupCounter.init :=
  failed_frame_leaves_counter_unchanged.1 PushupCounter.init []
    "Pushup analysis failed" rfl

theorem round1_range (x : ℝ) (h0 : 0 ≤ x) (h1 : x ≤ 100) :
    0 ≤ round1 x ∧ round1 x ≤ 100 := by
  unfold round1
  have hl : (0 : ℤ) ≤ round (10 * x) := by
    rw [round_eq]
    exact Int.le_floor.mpr (by push_cast; linarith)
  have hu : round (10 * x) ≤ 1000 := by
    rw [round_eq]
    exact Int.lt_add_one_iff.mp (Int.floor_lt.mpr (by push_cast; linarith))
  constructor
  · exact div_nonneg (by exact_mod_cast hl) (by norm_num)
  · rw [div_le_iff₀ (by norm_num : (0:ℝ) < 10)]
    have : ((round (10 * x) : ℤ) : ℝ) ≤ 1000 := by exact_mod_cast hu
    linarith

theorem pushup_form_score_range (aa ba : ℝ) :
    0 ≤ PushupCounter.calculate_pushup_form_score aa ba ∧
    PushupCounter.calculate_pushup_form_score aa ba ≤ 100 := by
  unfold PushupCounter.calculate_pushup_form_score
  exact ⟨le_min (by norm_num) (le_max_left 0 _), min_le_left _ _⟩

theorem squat_form_score_range (ka : ℝ) :
    0 ≤ SquatCounter.calculate_squat_form_score ka ∧
    SquatCounter.calculate_squat_form_score ka ≤ 100 := by
  unfold SquatCounter.calculate_squat_form_score
  split_ifs
  · norm_num
  · norm_num
  · refine ⟨le_max_left 0 _, max_le (by norm_num) ?_⟩
    have h : 0 ≤ |ka - 100| * 1.5 := mul_nonneg (abs_nonneg _) (by norm_num)
    linarith

theorem jj_form_score_range (ar lr : ℝ) (har : 0 ≤ ar) (hlr : 0 ≤ lr) :
    0 ≤ JumpingJackCounter.calculate_jumping_jack_form_score ar lr ∧
    JumpingJackCounter.calculate_jumping_jack_form_score ar lr ≤ 100 := by
  unfold JumpingJackCounter.calculate_jumping_jack_form_score
  dsimp only
  have hc0 : (0:ℝ) ≤ max 0 (100 - |ar - lr| * 200) := le_max_left _ _
  have hc1 : max 0 (100 - |ar - lr| * 200) ≤ 100 := by
    refine max_le (by norm_num) ?_
    have h : 0 ≤ |ar - lr| * 200 := mul_nonneg (abs_nonneg _) (by norm_num)
    linarith
  have hr0 : (0:ℝ) ≤ min 100 ((ar + lr) * 100) :=
    le_min (by norm_num) (by positivity)
  have hr1 : min 100 ((ar + lr) * 100) ≤ 100 := min_le_left _ _
  constructor <;> linarith

theorem jj_measurements_nonneg {landmarks : List Landmark} {ar lr : ℝ}
    (h : JumpingJackCounter.measurements landmarks = some (ar, lr)) :
    0 ≤ ar ∧ 0 ≤ lr := by
  unfold JumpingJackCounter.measurements at h
  rw [Option.bind_eq_bind'] at h
  obtain ⟨lw, -, h⟩ := Option.bind_eq_some'.mp h
  rw [Option.bind_eq_bind'] at h
  obtain ⟨rw', -, h⟩ := Option.bind_eq_some'.mp h
  rw [Option.bind_eq_bind'] at h
  obtain ⟨la, -, h⟩ := Option.bind_eq_some'.mp h
  rw [Option.bind_eq_bind'] at h
  obtain ⟨ra, -, h⟩ := Option.bind_eq_some'.mp h
  rw [Option.bind_eq_bind'] at h
  obtain ⟨no, -, h⟩ := Option.bind_eq_some'.mp h
  rw [Option.bind_eq_bind'] at h
  obtain ⟨rwx, -, h⟩ := Option.bind_eq_some'.mp h
  rw [Option.bind_eq_bind'] at h
  obtain ⟨lwx, -, h⟩ := Option.bind_eq_some'.mp h
  rw [Option.bind_eq_bind'] at h
  obtain ⟨rax, -, h⟩ := Option.bind_eq_some'.mp h
  rw [Option.bind_eq_bind'] at h
  obtain ⟨lax, -, h⟩ := Option.bind_eq_some'.mp h
  rw [Option.bind_eq_bind'] at h
  obtain ⟨ny, -, h⟩ := Option.bind_eq_some'.mp h
  rw [Option.bind_eq_bind'] at h
  obtain ⟨lay, -, h⟩ := Option.bind_eq_some'.mp h
  rw [Option.bind_eq_bind'] at h
  obtain ⟨ray, -, h⟩ := Option.bind_eq_some'.mp h
  rw [Option.pure_def] at h
  have h' := Option.some.inj h
  rw [Prod.ext_iff] at h'
  obtain ⟨har, hlr⟩ := h'
  dsimp only at har hlr
  subst har
  subst hlr
  constructor <;> split_ifs with hb
  · exact div_nonneg (abs_nonneg _) hb.le
  · exact le_refl 0
  · exact div_nonneg (abs_nonneg _) hb.le
  · exact le_refl 0

/-- C6: whatever frame is fed in (including frames producing angle 0,
pre-wrap angles like 200, or ratios as large as 5.0), any successfully
returned `form_score` of the three counters lies in `[0, 100]`: the
push-up and squat scores are clamped, and the jumping-jack combination
`0.6 * coordination + 0.4 * range` lands in `[0, 100]` without a final
clamp because both sub-scores do (the frame-derived ratios are
non-negative), and rounding to one decimal preserves the bounds. -/
theorem form_score_always_between_0_and_100 :
    (∀ (c : PushupCounter) (landmarks : List Landmark),
      match (c.analyze landmarks).1 with
      | Except.ok r => 0 ≤ r.form_score ∧ r.form_score ≤ 100
      | Except.error _ => True) ∧
    (∀ (c : SquatCounter) (landmarks : List Landmark),
      match (c.analyze landmarks).1 with
      | Except.ok r => 0 ≤ r.form_score ∧ r.form_score ≤ 100
      | Except.error _ => True) ∧
    (∀ (c : JumpingJackCounter) (landmarks : List Landmark),
      match (c.analyze landmarks).1 with
      | Except.ok r => 0 ≤ r.form_score ∧ r.form_score ≤ 100
      | Except.error _ => True) := by
  refine ⟨?_, ?_, ?_⟩ <;> intro c landmarks
  · unfold PushupCounter.analyze
    rcases PushupCounter.measurements landmarks with - | ⟨avg, align⟩
    · trivial
    · obtain ⟨h0, h1⟩ := pushup_form_score_range avg align
      exact round1_range _ h0 h1
  · unfold SquatCounter.analyze
    rcases SquatCounter.measurements landmarks with - | avg
    · trivial
    · obtain ⟨h0, h1⟩ := squat_form_score_range avg
      exact round1_range _ h0 h1
  · unfold JumpingJackCounter.analyze
    cases hm : JumpingJackCounter.measurements landmarks with
    | none => trivial
    | some p =>
        obtain ⟨ar, lr⟩ := p
        obtain ⟨har, hlr⟩ := jj_measurements_nonneg hm
        obtain ⟨h0, h1⟩ := jj_form_score_range ar lr har hlr
        exact round1_range _ h0 h1

theorem atan2_le_pi (y x : ℝ) : atan2 y x ≤ Real.pi := Complex.arg_le_pi _

theorem neg_pi_lt_atan2 (y x : ℝ) : -Real.pi < atan2 y x := Complex.neg_pi_lt_arg _

theorem atan2_zero_zero : atan2 (0 : ℝ) (0 : ℝ) = 0 := by
  unfold atan2
  norm_num [Complex.arg_zero]

theorem calculate_angle_bounds (a b c : ℝ × ℝ) :
    0 ≤ PushupCounter.calculate_angle a b c ∧
    PushupCounter.calculate_angle a b c ≤ 180 := by
  unfold PushupCounter.calculate_angle
  dsimp only
  have hpi : (0:ℝ) < Real.pi := Real.pi_pos
  have h1 := atan2_le_pi (c.2 - b.2) (c.1 - b.1)
  have h2 := neg_pi_lt_atan2 (c.2 - b.2) (c.1 - b.1)
  have h3 := atan2_le_pi (a.2 - b.2) (a.1 - b.1)
  have h4 := neg_pi_lt_atan2 (a.2 - b.2) (a.1 - b.1)
  set u := atan2 (c.2 - b.2) (c.1 - b.1)
  set v := atan2 (a.2 - b.2) (a.1 - b.1)
  have habs : |(u - v) * 180.0 / Real.pi| < 360 := by
    rw [abs_div, abs_of_pos hpi, abs_mul,
      abs_of_nonneg (by norm_num : (0:ℝ) ≤ 180.0)]
    rw [div_lt_iff₀ hpi]
    have h5 : |u - v| < 2 * Real.pi := abs_lt.mpr ⟨by linarith, by linarith⟩
    linarith
  split_ifs with h
  · constructor <;> linarith
  · exact ⟨abs_nonneg _, by linarith [not_lt.mp h]⟩

theorem calculate_angle_comm (a b c : ℝ × ℝ) :
    PushupCounter.calculate_angle a b c = PushupCounter.calculate_angle c b a := by
  unfold PushupCounter.calculate_angle
  dsimp only
  rw [show atan2 (a.2 - b.2) (a.1 - b.1) - atan2 (c.2 - b.2) (c.1 - b.1)
      = -(atan2 (c.2 - b.2) (c.1 - b.1) - atan2 (a.2 - b.2) (a.1 - b.1)) by ring,
    neg_mul, neg_div, abs_neg]

/-- C8: for any three 2D points (the distinctness hypotheses of the claim
are recorded but the formula needs no degenerate-case exclusion), the angle
returned by `_calculate_angle` lies in `[0, 180]` and is symmetric in its
outer arguments: swapping `a` and `c` negates the atan2 difference, which
the absolute value and the 360-wrap absorb. -/
theorem angle_in_0_180_and_symmetric (a b c : ℝ × ℝ)
    (hba : b ≠ a) (hbc : b ≠ c) :
    (0 ≤ PushupCounter.calculate_angle a b c ∧
      PushupCounter.calculate_angle a b c ≤ 180) ∧
    PushupCounter.calculate_angle a b c = PushupCounter.calculate_angle c b a :=
  ⟨calculate_angle_bounds a b c, calculate_angle_comm a b c⟩

/-- Witness for `angle_in_0_180_and_symmetric` at the concrete distinct
points `a = (0,0)`, `b = (1,0)`, `c = (2,2)`. -/
theorem angle_in_0_180_and_symmetric_witness :
    (0 ≤ PushupCounter.calculate_angle (0, 0) (1, 0) (2, 2) ∧
      PushupCounter.calculate_angle (0, 0) (1, 0) (2, 2) ≤ 180) ∧
    PushupCounter.calculate_angle (0, 0) (1, 0) (2, 2) =
      PushupCounter.calculate_angle (2, 2) (1, 0) (0, 0) :=
  angle_in_0_180_and_symmetric (0, 0) (1, 0) (2, 2)
    (by norm_num [Prod.ext_iff]) (by norm_num [Prod.ext_iff])

/-- C10: `PushupCounter._calculate_angle` and `SquatCounter._calculate_angle`
are character-for-character duplicates, so the embedded functions are
definitionally — hence extensionally — equal on every input triple. -/
theorem pushup_squat_calculate_angle_agree :
    ∀ a b c : ℝ × ℝ,
      PushupCounter.calculate_angle a b c = SquatCounter.calculate_angle a b c :=
  fun _ _ _ => rfl

theorem wrap_eq_abs_of_le_pi (u : ℝ) (hu : |u| ≤ Real.pi) :
    (if |u * 180.0 / Real.pi| > 180.0 then 360 - |u * 180.0 / Real.pi|
     else |u * 180.0 / Real.pi|) = |u| * 180.0 / Real.pi := by
  have hpi : (0:ℝ) < Real.pi := Real.pi_pos
  have heq : |u * 180.0 / Real.pi| = |u| * 180.0 / Real.pi := by
    rw [abs_div, abs_of_pos hpi, abs_mul,
      abs_of_nonneg (by norm_num : (0:ℝ) ≤ 180.0)]
  have hle : |u| * 180.0 / Real.pi ≤ 180.0 := by
    rw [div_le_iff₀ hpi]
    nlinarith
  rw [heq, if_neg (not_lt.mpr hle)]

/-- C9 counterexample: two degenerate inputs with `a == b` produce two
different results — `angle((0,0),(0,0),(-1,0)) = 180` while
`angle((0,0),(0,0),(1,0)) = 0` — so the degenerate result is neither
always `0` nor any other single sentinel value (it varies with the
remaining point).  No fault occurs: `np.arctan2(0, 0)` is defined as `0`. -/
theorem degenerate_angle_not_single_valued :
    PushupCounter.calculate_angle (0, 0) (0, 0) (-1, 0) = 180 ∧
    PushupCounter.calculate_angle (0, 0) (0, 0) (1, 0) = 0 := by
  have hneg : atan2 ((0:ℝ) - 0) ((-1:ℝ) - 0) = Real.pi := by
    unfold atan2
    norm_num [Complex.arg_neg_one]
  have hone : atan2 ((0:ℝ) - 0) ((1:ℝ) - 0) = 0 := by
    unfold atan2
    norm_num [Complex.arg_one]
  have hzz : atan2 ((0:ℝ) - 0) ((0:ℝ) - 0) = 0 := by
    norm_num [atan2_zero_zero]
  constructor
  · unfold PushupCounter.calculate_angle
    dsimp only
    rw [hneg, hzz, sub_zero]
    rw [wrap_eq_abs_of_le_pi Real.pi (by rw [abs_of_pos Real.pi_pos])]
    rw [abs_of_pos Real.pi_pos]
    field_simp
    norm_num
  · unfold PushupCounter.calculate_angle
    dsimp only
    rw [hone, hzz, sub_zero]
    norm_num

/-- C9 (amended): a degenerate call with `a == b` or `c == b` raises no
division or NaN fault (`np.arctan2(0,0)` is defined as `0` and the only
division is by `π`), and the result is still in `[0, 180]`; but it is not
`0` or a single sentinel — it equals `|atan2|·180/π` of the remaining
point's offset from the vertex, which varies over all of `[0, 180]`. -/
theorem degenerate_angle_behaviour (a b c : ℝ × ℝ) (h : a = b ∨ c = b) :
    (0 ≤ PushupCounter.calculate_angle a b c ∧
      PushupCounter.calculate_angle a b c ≤ 180) ∧
    (a = b → PushupCounter.calculate_angle a b c =
      |atan2 (c.2 - b.2) (c.1 - b.1)| * 180.0 / Real.pi) ∧
    (c = b → PushupCounter.calculate_angle a b c =
      |atan2 (a.2 - b.2) (a.1 - b.1)| * 180.0 / Real.pi) := by
  refine ⟨calculate_angle_bounds a b c, ?_, ?_⟩
  · intro hab
    subst hab
    unfold PushupCounter.calculate_angle
    dsimp only
    rw [sub_self, sub_self, atan2_zero_zero, sub_zero]
    exact wrap_eq_abs_of_le_pi _
      (abs_le.mpr ⟨(neg_pi_lt_atan2 _ _).le, atan2_le_pi _ _⟩)
  · intro hcb
    subst hcb
    unfold PushupCounter.calculate_angle
    dsimp only
    rw [sub_self, sub_self, atan2_zero_zero, zero_sub]
    rw [show ∀ v : ℝ, -v * 180.0 / Real.pi = -(v * 180.0 / Real.pi) from
      fun v => by ring, abs_neg]
    exact wrap_eq_abs_of_le_pi _
      (abs_le.mpr ⟨(neg_pi_lt_atan2 _ _).le, atan2_le_pi _ _⟩)

/-- Witness for `degenerate_angle_behaviour` at the fully degenerate input
`a = b = (0,0)`, `c = (1,0)`. -/
theorem degenerate_angle_behaviour_witness :
    (0 ≤ PushupCounter.calculate_angle (0, 0) (0, 0) (1, 0) ∧
      PushupCounter.calculate_angle (0, 0) (0, 0) (1, 0) ≤ 180) ∧
    (((0:ℝ), (0:ℝ)) = ((0:ℝ), (0:ℝ)) →
      PushupCounter.calculate_angle (0, 0) (0, 0) (1, 0) =
        |atan2 ((0:ℝ) - 0) ((1:ℝ) - 0)| * 180.0 / Real.pi) ∧
    ((((1:ℝ), (0:ℝ)) : ℝ × ℝ) = ((0:ℝ), (0:ℝ)) →
      PushupCounter.calculate_angle (0, 0) (0, 0) (1, 0) =
        |atan2 ((0:ℝ) - 0) ((0:ℝ) - 0)| * 180.0 / Real.pi) :=
  degenerate_angle_behaviour (0, 0) (0, 0) (1, 0) (Or.inl rfl)

theorem pushup_analyze_state_is_step {c : PushupCounter} {landmarks : List Landmark}
    {avg align : ℝ} (h : PushupCounter.measurements landmarks = some (avg, align)) :
    (c.analyze landmarks).2 = c.step avg := by
  unfold PushupCounter.analyze
  rw [h]

theorem jj_analyze_state_is_step {c : JumpingJackCounter} {landmarks : List Landmark}
    {ar lr : ℝ} (h : JumpingJackCounter.measurements landmarks = some (ar, lr)) :
    (c.analyze landmarks).2 = c.step ar lr := by
  unfold JumpingJackCounter.analyze
  rw [h]

theorem squat_analyze_state_is_step {c : SquatCounter} {landmarks : List Landmark}
    {avg : ℝ} (h : SquatCounter.measurements landmarks = some avg) :
    (c.analyze landmarks).2 = c.step avg := by
  unfold SquatCounter.analyze
  rw [h]
